import Mathlib

/-!
Verification of the typed-object JSON persistence layer in
`Code/Framework/AtomCore/AtomCore/Serialization/Json/Utils.cpp`
(namespace `AZ::JsonSerializationUtils`).

The embedding follows the source closely: pure helpers become Lean
functions, the fallible calls return `Except String`, and places where
the C++ dereferences an iterator or pointer that may be invalid (a
`FindMember` end iterator, a null `FindClassData` result) are modelled
with an outer `Option`, where `none` stands for undefined behaviour.
External engine services that the translation unit merely calls
(the rapidjson parser, `JsonSerialization::Store` and `Load`) are taken
as parameters of the pipeline functions, or, where a claim needs their
behaviour, modelled from the specification and marked as such.
-/

namespace AZJson

/-- JSON values as produced by the document parser (rapidjson value model). -/
inductive JsonValue where
  | null
  | boolean (b : Bool)
  | number (n : Int)
  | str (s : String)
  | arr (elements : List JsonValue)
  | obj (members : List (String × JsonValue))

/-- The root of every document handled by this layer is a JSON object;
a parsed document is its member list, in insertion order. -/
abbrev Document := List (String × JsonValue)

def JsonValue.isString : JsonValue → Bool
  | .str _ => true
  | _ => false

def JsonValue.isObject : JsonValue → Bool
  | .obj _ => true
  | _ => false

def FileTypeTag : String := "Type"

def FileType : String := "JsonSerialization"

def VersionTag : String := "Version"

def ClassNameTag : String := "ClassName"

def ClassDataTag : String := "ClassData"

def MaxFileSize : Nat := 1024 * 1024

/-- `rapidjson::Value::FindMember` on the root object: first member with
the given key, if any. -/
def findMember (doc : Document) (name : String) : Option JsonValue :=
  (doc.find? (fun m => m.1 == name)).map (fun m => m.2)

/-- The ASCII code of a character after lower-casing, the folding that
`azstricmp` applies to each character. -/
def lowerCode (c : Char) : Nat :=
  if 65 ≤ c.toNat ∧ c.toNat ≤ 90 then c.toNat + 32 else c.toNat

/-- `azstricmp(a, b) == 0`: ASCII case-insensitive string equality. -/
def azstricmpEq (a b : String) : Bool :=
  a.data.map lowerCode == b.data.map lowerCode

/-- `ValidateJsonClassHeader`: the three sequential header checks, first
failure wins (Utils.cpp lines 241-263). -/
def ValidateJsonClassHeader (doc : Document) : Except String Unit :=
  let typeBad : Bool :=
    match findMember doc FileTypeTag with
    | some (JsonValue.str s) => !azstricmpEq s FileType
    | _ => true
  if typeBad then Except.error "Not a valid JsonSerialization file" else
  let nameBad : Bool :=
    match findMember doc ClassNameTag with
    | some (JsonValue.str _) => false
    | _ => true
  if nameBad then Except.error "File should contain ClassName" else
  let dataBad : Bool :=
    match findMember doc ClassDataTag with
    | none => false
    | some v => !v.isObject
  if dataBad then Except.error "ClassData should be an object" else
  Except.ok ()

/-- Check (1) of the header contract, as the spec words it: the `Type`
member is present, is a string, and case-insensitively equals the
sentinel. -/
def TypeHeaderOk (doc : Document) : Prop :=
  ∃ s, findMember doc FileTypeTag = some (JsonValue.str s) ∧
    s.data.map lowerCode = FileType.data.map lowerCode

/-- Check (2): the `ClassName` member is present and is a string. -/
def ClassNameHeaderOk (doc : Document) : Prop :=
  ∃ s, findMember doc ClassNameTag = some (JsonValue.str s)

/-- Check (3): the `ClassData` member, if present, is an object. -/
def ClassDataHeaderOk (doc : Document) : Prop :=
  ∀ v, findMember doc ClassDataTag = some v → v.isObject = true

/-- Claim C2: header validation performs exactly the three checks in a
fixed order — Type sentinel, then ClassName, then ClassData shape — and
the first failing check determines the returned message, later checks
unevaluated; all checks passing yields success. -/
theorem validateJsonClassHeader_characterization (doc : Document) :
    (ValidateJsonClassHeader doc = Except.error "Not a valid JsonSerialization file"
        ↔ ¬ TypeHeaderOk doc) ∧
    (ValidateJsonClassHeader doc = Except.error "File should contain ClassName"
        ↔ (TypeHeaderOk doc ∧ ¬ ClassNameHeaderOk doc)) ∧
    (ValidateJsonClassHeader doc = Except.error "ClassData should be an object"
        ↔ (TypeHeaderOk doc ∧ ClassNameHeaderOk doc ∧ ¬ ClassDataHeaderOk doc)) ∧
    (ValidateJsonClassHeader doc = Except.ok ()
        ↔ (TypeHeaderOk doc ∧ ClassNameHeaderOk doc ∧ ClassDataHeaderOk doc)) := by
  unfold ValidateJsonClassHeader TypeHeaderOk ClassNameHeaderOk ClassDataHeaderOk
  cases hT : findMember doc FileTypeTag with
  | none => simp
  | some vT =>
    cases vT with
    | str sT =>
      by_cases hcase : azstricmpEq sT FileType = true
      · have hlow : sT.data.map lowerCode = FileType.data.map lowerCode := by
          simpa [azstricmpEq] using hcase
        cases hN : findMember doc ClassNameTag with
        | none => simp [hcase, hlow]
        | some vN =>
          cases vN with
          | str sN =>
            cases hD : findMember doc ClassDataTag with
            | none => simp [hcase, hlow]
            | some vD =>
              by_cases hobj : vD.isObject = true
              · simp [hcase, hlow, hobj]
              · simp [hcase, hlow, hobj]
          | null => simp [hcase, hlow]
          | boolean b => simp [hcase, hlow]
          | number n => simp [hcase, hlow]
          | arr es => simp [hcase, hlow]
          | obj ms => simp [hcase, hlow]
      · have hlow : ¬ sT.data.map lowerCode = FileType.data.map lowerCode := by
          simpa [azstricmpEq] using hcase
        simp [hcase, hlow]
    | null => simp
    | boolean b => simp
    | number n => simp
    | arr es => simp
    | obj ms => simp

/-- Modelled from the spec: the outcome categories of the engine result
codes. The translation unit only distinguishes the three success
categories from everything else, so a representative finite enumeration
suffices. -/
inductive Outcomes where
  | Success
  | DefaultsUsed
  | PartialDefaults
  | Skipped
  | Unavailable
  | Unsupported
  | TypeMismatch
  | Missing
  | Invalid
  | Unknown
  | Catastrophic
deriving DecidableEq, Repr

/-- Modelled from the spec: the processing status of an engine result
code, `Completed` or `Halted`. -/
inductive Processing where
  | Completed
  | Halted
deriving DecidableEq, Repr

instance : BEq Outcomes := instBEqOfDecidableEq

instance : BEq Processing := instBEqOfDecidableEq

/-- Modelled from the spec: an engine `ResultCode` pairs a processing
status with an outcome category. -/
structure ResultCode where
  processing : Processing
  outcome : Outcomes
deriving DecidableEq, Repr

/-- `WasLoadSuccess` (Utils.cpp lines 117-122). -/
def WasLoadSuccess (o : Outcomes) : Bool :=
  o == Outcomes.Success || o == Outcomes.DefaultsUsed || o == Outcomes.PartialDefaults

/-- The exact message the issue-reporting callback filters out
(Utils.cpp line 151). -/
def suppressedUuidMessage : String :=
  "No part of the string could be interpreted as a uuid."

/-- The issue-reporting callback installed by
`PrepareDeserializerSettings` (Utils.cpp lines 143-164), as a state
transformer of the per-call diagnostics buffer: given one reported
event, the updated buffer. The delegation to a caller-supplied
secondary callback leaves the buffer untouched and is elided here
(the claims assume no secondary callback). -/
def issueReportingCallback (message : String) (result : ResultCode) (target : String)
    (deserializeError : String) : String :=
  if !WasLoadSuccess result.outcome then
    if message != suppressedUuidMessage then
      deserializeError ++ message ++ " \x27" ++ target ++ "\x27 \n"
    else
      deserializeError
  else
    deserializeError

/-- One event flowing through the reporting callback during a single
load call. -/
structure Report where
  message : String
  result : ResultCode
  target : String

/-- The diagnostics buffer accumulated over the events of one load
call, starting empty. -/
def accumulateDiagnostics (reports : List Report) : String :=
  reports.foldl
    (fun buf r => issueReportingCallback r.message r.result r.target buf) ""

/-- An abstract generic stream: whether it can be written, its reported
length, the bytes a read will actually yield, and whether the pretty
writer sink accepts output. -/
structure GenericStream where
  canWrite : Bool
  length : Nat
  contents : List Char
  writeSucceeds : Bool

/-- `LoadJson` over a stream (Utils.cpp lines 196-219). The rapidjson
grammar engine is external to the translation unit, so the parser is a
parameter; the source null-terminates the buffer before parsing. -/
def LoadJson (parse : List Char → Except String Document)
    (stream : GenericStream) : Except String Document :=
  let length := stream.length
  if length > MaxFileSize then
    Except.error "Data is too large."
  else
    let bytesRead := min length stream.contents.length
    if bytesRead != length then
      Except.error "Cannot to read input stream."
    else
      parse (stream.contents.take length ++ [Char.ofNat 0])

/-- Claim C7: a stream reporting more than the 1 MiB maximum fails with
the data-too-large error for every possible parser and every stream
content, so neither the read nor the parser contributes; a short read
fails with the distinct read-incomplete error, again for every parser;
and the two error messages are distinct. -/
theorem loadJson_guards :
    (∀ (parse : List Char → Except String Document) (stream : GenericStream),
      stream.length > MaxFileSize →
      LoadJson parse stream = Except.error "Data is too large.") ∧
    (∀ (parse : List Char → Except String Document) (stream : GenericStream),
      stream.length ≤ MaxFileSize →
      stream.contents.length < stream.length →
      LoadJson parse stream = Except.error "Cannot to read input stream.") ∧
    ("Data is too large." ≠ "Cannot to read input stream.") := by
  refine ⟨?_, ?_, by decide⟩
  · intro parse stream h
    simp [LoadJson, h]
  · intro parse stream hle hshort
    have hgt : ¬ stream.length > MaxFileSize := not_lt.mpr hle
    have hmin : min stream.length stream.contents.length = stream.contents.length :=
      min_eq_right (le_of_lt hshort)
    have hne : stream.contents.length ≠ stream.length := ne_of_lt hshort
    simp [LoadJson, hgt, hmin, hne]

/-- Claim C7 witness: concrete oversized and short-reading streams hit
the two guards. -/
theorem loadJson_guards_witness :
    LoadJson (fun _ => Except.ok []) ⟨true, 1024 * 1024 + 1, [], true⟩ =
      Except.error "Data is too large." ∧
    LoadJson (fun _ => Except.ok []) ⟨true, 5, ['a'], true⟩ =
      Except.error "Cannot to read input stream." := by
  constructor
  · exact loadJson_guards.1 (fun _ => Except.ok []) ⟨true, 1024 * 1024 + 1, [], true⟩
      (by norm_num [MaxFileSize])
  · exact loadJson_guards.2.1 (fun _ => Except.ok []) ⟨true, 5, ['a'], true⟩
      (by norm_num [MaxFileSize]) (by norm_num)

/-- Type ids are opaque identifiers; a natural number stands in for the
engine Uuid. -/
abbrev Uuid := Nat

/-- Modelled from the spec: a reflected field of a registered class —
its name and the default value a fresh instance carries (integer-valued
fields suffice for the claims). -/
structure FieldSpec where
  fname : String
  fdefault : Int

/-- The class data record returned by the type registry: the translation
unit reads only its stable name; the reflected field layout is carried
for the modelled object mapper. -/
structure ClassData where
  m_name : String
  fields : List FieldSpec

/-- The serialize context: the type registry mapping type ids to class
data. -/
structure SerializeContext where
  classes : List (Uuid × ClassData)

/-- `SerializeContext::FindClassData`: class lookup by id; null when the
id is unregistered. -/
def SerializeContext.FindClassData (sc : SerializeContext) (classId : Uuid) :
    Option ClassData :=
  (sc.classes.find? (fun c => c.1 == classId)).map (fun c => c.2)

/-- Modelled from the spec: the hashed-name key used by the registry for
by-name lookup; the engine hash lowercases its input first, modelled
here by the sequence of folded character codes standing for the hash
value. -/
def crc32 (s : String) : List Nat := s.data.map lowerCode

/-- `SerializeContext::FindClassId`: all registered ids whose class name
hashes to the given key. -/
def SerializeContext.FindClassId (sc : SerializeContext) (crcName : List Nat) :
    List Uuid :=
  (sc.classes.filter (fun c => crc32 c.2.m_name == crcName)).map (fun c => c.1)

/-- Serializer settings: the claims need only the optional serialize
context. -/
structure JsonSerializerSettings where
  m_serializeContext : Option SerializeContext

/-- Deserializer settings: the claims need only the optional serialize
context; the reporting callback the source installs is modelled by
`accumulateDiagnostics`. -/
structure JsonDeserializerSettings where
  m_serializeContext : Option SerializeContext

/-- The serialize-context resolution of `PrepareDeserializerSettings`
(Utils.cpp lines 124-139): the settings context when provided, else the
application-wide context obtained from the component bus, else failure. -/
def PrepareDeserializerSettings (settings : Option JsonDeserializerSettings)
    (globalContext : Option SerializeContext) : Except String SerializeContext :=
  match settings with
  | some s =>
    match s.m_serializeContext with
    | some sc => Except.ok sc
    | none =>
      match globalContext with
      | some sc => Except.ok sc
      | none => Except.error "Need SerializeContext for loading"
  | none =>
    match globalContext with
    | some sc => Except.ok sc
    | none => Except.error "Need SerializeContext for loading"

/-- The serialize-context resolution of `SaveObjectToStreamByType`
(Utils.cpp lines 48-63). -/
def resolveSaveContext (settings : Option JsonSerializerSettings)
    (globalContext : Option SerializeContext) : Except String SerializeContext :=
  match settings with
  | some s =>
    match s.m_serializeContext with
    | some sc => Except.ok sc
    | none =>
      match globalContext with
      | some sc => Except.ok sc
      | none => Except.error "Need SerializeContext for saving"
  | none =>
    match globalContext with
    | some sc => Except.ok sc
    | none => Except.error "Need SerializeContext for saving"

/-- Modelled from the spec: the human-readable rendering of a result
code used in the save error path; the engine rendering lives outside
this translation unit. -/
def ResultCode.toText (r : ResultCode) : String :=
  match r.outcome with
  | Outcomes.Success => "Success"
  | Outcomes.DefaultsUsed => "DefaultsUsed"
  | Outcomes.PartialDefaults => "PartialDefaults"
  | Outcomes.Skipped => "Skipped"
  | Outcomes.Unavailable => "Unavailable"
  | Outcomes.Unsupported => "Unsupported"
  | Outcomes.TypeMismatch => "TypeMismatch"
  | Outcomes.Missing => "Missing"
  | Outcomes.Invalid => "Invalid"
  | Outcomes.Unknown => "Unknown"
  | Outcomes.Catastrophic => "Catastrophic"

/-- `SaveObjectToStreamByType` (Utils.cpp lines 40-95). The engine call
`JsonSerialization::Store` is the `mapperStore` parameter; the success
value is the envelope document the pretty writer emitted to the stream.
`none` marks the undefined behaviour of reading `classData->m_name`
through the unchecked `FindClassData` result (line 82). -/
def SaveObjectToStreamByType {Obj : Type}
    (mapperStore : Obj → Option Obj → Uuid → ResultCode × JsonValue)
    (settings : Option JsonSerializerSettings)
    (globalContext : Option SerializeContext)
    (objectPtr : Obj) (defaultObjectPtr : Option Obj) (classId : Uuid)
    (stream : GenericStream) : Option (Except String Document) :=
  if !stream.canWrite then
    some (Except.error "The GenericStream can\x27t be written to")
  else
    match resolveSaveContext settings globalContext with
    | Except.error e => some (Except.error e)
    | Except.ok serializeContext =>
      let jsonResult := mapperStore objectPtr defaultObjectPtr classId
      if jsonResult.1.processing != Processing.Completed then
        some (Except.error (jsonResult.1.toText))
      else
        match serializeContext.FindClassData classId with
        | none => none
        | some classData =>
          let jsonDocument : Document :=
            [(FileTypeTag, JsonValue.str FileType),
             (VersionTag, JsonValue.number 1),
             (ClassNameTag, JsonValue.str classData.m_name),
             (ClassDataTag, jsonResult.2)]
          if stream.writeSucceeds then
            some (Except.ok jsonDocument)
          else
            some (Except.error ("Unable to write class " ++ toString classId ++
              " with json serialization format\x27"))

/-- The file system state seen by `SaveObjectToFileByType`: the files
already written, and which paths can be opened for writing. -/
structure FileSystem where
  files : List (String × Document)
  openForWriteOk : String → Bool

/-- `SaveObjectToFileByType` (Utils.cpp lines 97-114): serialize into an
in-memory byte stream, and only on success open and write the
destination file; the save result is returned unchanged unless opening
the file fails. -/
def SaveObjectToFileByType {Obj : Type}
    (mapperStore : Obj → Option Obj → Uuid → ResultCode × JsonValue)
    (settings : Option JsonSerializerSettings)
    (globalContext : Option SerializeContext)
    (classPtr : Obj) (defaultClassPtr : Option Obj) (classId : Uuid)
    (filePath : String) (fs : FileSystem) :
    Option (Except String Unit) × FileSystem :=
  let byteStream : GenericStream := ⟨true, 0, [], true⟩
  match SaveObjectToStreamByType mapperStore settings globalContext classPtr
      defaultClassPtr classId byteStream with
  | none => (none, fs)
  | some (Except.error e) => (some (Except.error e), fs)
  | some (Except.ok savedDocument) =>
    if fs.openForWriteOk filePath then
      (some (Except.ok ()), ⟨(filePath, savedDocument) :: fs.files, fs.openForWriteOk⟩)
    else
      (some (Except.error ("Error opening file \x27" ++ filePath ++ "\x27 for writing")), fs)

/-- The part of `LoadObjectFromStreamByType` after the document has been
parsed (Utils.cpp lines 284-305): header validation, class-name
verification against the requested id, and the mapped load with the
aggregated diagnostics deciding the overall result. `none` marks the
undefined behaviour of dereferencing the unchecked `FindClassData`
result (line 294) or the `FindMember` end iterator for `ClassData`
(line 299). -/
def loadObjectFromDocument {Obj : Type}
    (mapperLoad : Uuid → JsonValue → ResultCode × List Report × Obj)
    (serializeContext : SerializeContext) (classId : Uuid)
    (jsonDocument : Document) : Option (Except String Obj) :=
  match ValidateJsonClassHeader jsonDocument with
  | Except.error e => some (Except.error e)
  | Except.ok _ =>
    match findMember jsonDocument ClassNameTag with
    | some (JsonValue.str className) =>
      match serializeContext.FindClassData classId with
      | none => none
      | some classData =>
        if !azstricmpEq classData.m_name className then
          some (Except.error ("Try to load class " ++ classData.m_name ++
            " from class " ++ className ++ " data"))
        else
          match findMember jsonDocument ClassDataTag with
          | none => none
          | some objectData =>
            let r := mapperLoad classId objectData
            let deserializeErrors := accumulateDiagnostics r.2.1
            if !WasLoadSuccess r.1.outcome || deserializeErrors != "" then
              some (Except.error deserializeErrors)
            else
              some (Except.ok r.2.2)
    | _ => none

/-- `LoadObjectFromStreamByType` (Utils.cpp lines 265-306). The engine
call `JsonSerialization::Load` is the `mapperLoad` parameter, returning
the result code, the events reported through the installed callback, and
the populated object. -/
def LoadObjectFromStreamByType {Obj : Type}
    (parse : List Char → Except String Document)
    (mapperLoad : Uuid → JsonValue → ResultCode × List Report × Obj)
    (settings : Option JsonDeserializerSettings)
    (globalContext : Option SerializeContext)
    (classId : Uuid) (stream : GenericStream) : Option (Except String Obj) :=
  match PrepareDeserializerSettings settings globalContext with
  | Except.error e => some (Except.error e)
  | Except.ok serializeContext =>
    match LoadJson parse stream with
    | Except.error e => some (Except.error e)
    | Except.ok jsonDocument =>
      loadObjectFromDocument mapperLoad serializeContext classId jsonDocument

/-- `LoadAnyObjectFromStream` (Utils.cpp lines 309-353). The source
computes the header validation outcome but the guard that follows
re-tests the parse result, which is already known to be good, instead of
the validation outcome, so a failed validation never short-circuits this
function (lines 327-331); the member accesses that follow an invalid
header are undefined behaviour, modelled as `none`. -/
def LoadAnyObjectFromStream {Obj : Type}
    (parse : List Char → Except String Document)
    (mapperLoad : Uuid → JsonValue → ResultCode × List Report × Obj)
    (settings : Option JsonDeserializerSettings)
    (globalContext : Option SerializeContext)
    (stream : GenericStream) : Option (Except String Obj) :=
  match PrepareDeserializerSettings settings globalContext with
  | Except.error e => some (Except.error e)
  | Except.ok serializeContext =>
    match LoadJson parse stream with
    | Except.error e => some (Except.error e)
    | Except.ok jsonDocument =>
      let _ := ValidateJsonClassHeader jsonDocument
      match findMember jsonDocument ClassNameTag with
      | some (JsonValue.str className) =>
        match serializeContext.FindClassId (crc32 className) with
        | classId :: _ =>
          match findMember jsonDocument ClassDataTag with
          | some objectData =>
            let r := mapperLoad classId objectData
            let deserializeErrors := accumulateDiagnostics r.2.1
            if !WasLoadSuccess r.1.outcome || deserializeErrors != "" then
              some (Except.error deserializeErrors)
            else
              some (Except.ok r.2.2)
          | none => none
        | [] =>
          some (Except.error ("Can\x27t find serialize context for class " ++ className))
      | _ => none

/-! Shared helper lemmas and concrete instances used by the claim
theorems and their witnesses. -/

/-- When every stage up to the mapped load succeeds, the post-parse load
reduces to the final outcome-and-diagnostics decision. -/
lemma loadObjectFromDocument_mapped {Obj : Type}
    (mapperLoad : Uuid → JsonValue → ResultCode × List Report × Obj)
    (sc : SerializeContext) (classId : Uuid) (doc : Document)
    (className : String) (classData : ClassData) (objectData : JsonValue)
    (hval : ValidateJsonClassHeader doc = Except.ok ())
    (hname : findMember doc ClassNameTag = some (JsonValue.str className))
    (hcd : sc.FindClassData classId = some classData)
    (hcmp : azstricmpEq classData.m_name className = true)
    (hdata : findMember doc ClassDataTag = some objectData) :
    loadObjectFromDocument mapperLoad sc classId doc =
      (if !WasLoadSuccess (mapperLoad classId objectData).1.outcome
          || accumulateDiagnostics (mapperLoad classId objectData).2.1 != "" then
        some (Except.error (accumulateDiagnostics (mapperLoad classId objectData).2.1))
      else
        some (Except.ok (mapperLoad classId objectData).2.2)) := by
  simp [loadObjectFromDocument, hval, hname, hcd, hcmp, hdata]

/-- If every non-success event of a load carries the one suppressed
message, the diagnostics buffer stays empty. -/
lemma accumulateDiagnostics_eq_empty :
    ∀ (reports : List Report),
      (∀ r ∈ reports, WasLoadSuccess r.result.outcome = false →
        r.message = suppressedUuidMessage) →
      accumulateDiagnostics reports = "" := by
  have key : ∀ (reports : List Report),
      (∀ r ∈ reports, WasLoadSuccess r.result.outcome = false →
        r.message = suppressedUuidMessage) →
      ∀ buf, reports.foldl
        (fun b r => issueReportingCallback r.message r.result r.target b) buf = buf := by
    intro reports
    induction reports with
    | nil => intro _ buf; rfl
    | cons r rs ih =>
      intro h buf
      have step : issueReportingCallback r.message r.result r.target buf = buf := by
        cases hs : WasLoadSuccess r.result.outcome with
        | false =>
          have hm : r.message = suppressedUuidMessage :=
            h r (List.mem_cons_self r rs) hs
          simp [issueReportingCallback, hs, hm]
        | true => simp [issueReportingCallback, hs]
      rw [List.foldl_cons, step]
      exact ih (fun x hx => h x (List.mem_cons_of_mem r hx)) buf
  intro reports h
  exact key reports h ""

/-- Concrete sample class, registry, envelope document, stream and
mappers used as witnesses. -/
def demoClassData : ClassData := ⟨"TestClass", []⟩

def demoContext : SerializeContext := ⟨[(1, demoClassData)]⟩

def emptyContext : SerializeContext := ⟨[]⟩

def demoDoc : Document :=
  [(FileTypeTag, JsonValue.str FileType),
   (ClassNameTag, JsonValue.str "TestClass"),
   (ClassDataTag, JsonValue.obj [])]

def headerOnlyDoc : Document := [(FileTypeTag, JsonValue.str FileType)]

def demoStream : GenericStream := ⟨true, 0, [], true⟩

def demoMapperLoad : Uuid → JsonValue → ResultCode × List Report × Nat :=
  fun _ _ => (⟨Processing.Completed, Outcomes.Success⟩, [], 0)

def demoUuidMapperLoad : Uuid → JsonValue → ResultCode × List Report × Nat :=
  fun _ _ => (⟨Processing.Completed, Outcomes.Success⟩,
    [⟨suppressedUuidMessage, ⟨Processing.Completed, Outcomes.Unsupported⟩, "/field"⟩], 0)

def demoMapperStore : Nat → Option Nat → Uuid → ResultCode × JsonValue :=
  fun _ _ _ => (⟨Processing.Completed, Outcomes.Success⟩, JsonValue.null)

def demoFileSystem : FileSystem := ⟨[("existing", [])], fun _ => true⟩

/-- Claim C1: a top-level load that reaches the object-mapping step —
context resolution, parse, header validation and class-name handling all
succeeded — returns success if and only if the final mapping outcome is
one of the success categories and the per-call diagnostics buffer is
empty; in every other case it returns failure carrying the accumulated
diagnostics text, even when the outcome category itself is `Success`.
This holds both for `LoadObjectFromStreamByType` and for
`LoadAnyObjectFromStream`. -/
theorem loadResult_success_iff :
    (∀ (Obj : Type) (parse : List Char → Except String Document)
      (mapperLoad : Uuid → JsonValue → ResultCode × List Report × Obj)
      (settings : Option JsonDeserializerSettings)
      (globalContext : Option SerializeContext)
      (classId : Uuid) (stream : GenericStream) (sc : SerializeContext)
      (doc : Document) (className : String) (classData : ClassData)
      (objectData : JsonValue),
      PrepareDeserializerSettings settings globalContext = Except.ok sc →
      LoadJson parse stream = Except.ok doc →
      ValidateJsonClassHeader doc = Except.ok () →
      findMember doc ClassNameTag = some (JsonValue.str className) →
      sc.FindClassData classId = some classData →
      azstricmpEq classData.m_name className = true →
      findMember doc ClassDataTag = some objectData →
      ((∃ obj, LoadObjectFromStreamByType parse mapperLoad settings globalContext
          classId stream = some (Except.ok obj)) ↔
        (WasLoadSuccess (mapperLoad classId objectData).1.outcome = true ∧
         accumulateDiagnostics (mapperLoad classId objectData).2.1 = "")) ∧
      (¬ (WasLoadSuccess (mapperLoad classId objectData).1.outcome = true ∧
          accumulateDiagnostics (mapperLoad classId objectData).2.1 = "") →
        LoadObjectFromStreamByType parse mapperLoad settings globalContext classId stream
          = some (Except.error
              (accumulateDiagnostics (mapperLoad classId objectData).2.1)))) ∧
    (∀ (Obj : Type) (parse : List Char → Except String Document)
      (mapperLoad : Uuid → JsonValue → ResultCode × List Report × Obj)
      (settings : Option JsonDeserializerSettings)
      (globalContext : Option SerializeContext)
      (stream : GenericStream) (sc : SerializeContext)
      (doc : Document) (className : String) (classId : Uuid) (restIds : List Uuid)
      (objectData : JsonValue),
      PrepareDeserializerSettings settings globalContext = Except.ok sc →
      LoadJson parse stream = Except.ok doc →
      findMember doc ClassNameTag = some (JsonValue.str className) →
      sc.FindClassId (crc32 className) = classId :: restIds →
      findMember doc ClassDataTag = some objectData →
      ((∃ obj, LoadAnyObjectFromStream parse mapperLoad settings globalContext stream
          = some (Except.ok obj)) ↔
        (WasLoadSuccess (mapperLoad classId objectData).1.outcome = true ∧
         accumulateDiagnostics (mapperLoad classId objectData).2.1 = "")) ∧
      (¬ (WasLoadSuccess (mapperLoad classId objectData).1.outcome = true ∧
          accumulateDiagnostics (mapperLoad classId objectData).2.1 = "") →
        LoadAnyObjectFromStream parse mapperLoad settings globalContext stream
          = some (Except.error
              (accumulateDiagnostics (mapperLoad classId objectData).2.1)))) := by
  constructor
  · intro Obj parse mapperLoad settings globalContext classId stream sc doc className
      classData objectData hprep hload hval hname hcd hcmp hdata
    have hpipe : LoadObjectFromStreamByType parse mapperLoad settings globalContext
        classId stream = loadObjectFromDocument mapperLoad sc classId doc := by
      simp [LoadObjectFromStreamByType, hprep, hload]
    rw [hpipe, loadObjectFromDocument_mapped mapperLoad sc classId doc className
      classData objectData hval hname hcd hcmp hdata]
    by_cases hs : WasLoadSuccess (mapperLoad classId objectData).1.outcome = true
    · by_cases he : accumulateDiagnostics (mapperLoad classId objectData).2.1 = ""
      · simp [hs, he]
      · simp [hs, he]
    · have hs' : WasLoadSuccess (mapperLoad classId objectData).1.outcome = false :=
        Bool.eq_false_iff.mpr hs
      simp [hs']
  · intro Obj parse mapperLoad settings globalContext stream sc doc className classId
      restIds objectData hprep hload hname hids hdata
    have hpipe : LoadAnyObjectFromStream parse mapperLoad settings globalContext stream =
        (if !WasLoadSuccess (mapperLoad classId objectData).1.outcome
            || accumulateDiagnostics (mapperLoad classId objectData).2.1 != "" then
          some (Except.error (accumulateDiagnostics (mapperLoad classId objectData).2.1))
        else
          some (Except.ok (mapperLoad classId objectData).2.2)) := by
      simp [LoadAnyObjectFromStream, hprep, hload, hname, hids, hdata]
    rw [hpipe]
    by_cases hs : WasLoadSuccess (mapperLoad classId objectData).1.outcome = true
    · by_cases he : accumulateDiagnostics (mapperLoad classId objectData).2.1 = ""
      · simp [hs, he]
      · simp [hs, he]
    · have hs' : WasLoadSuccess (mapperLoad classId objectData).1.outcome = false :=
        Bool.eq_false_iff.mpr hs
      simp [hs']

/-- Claim C1 witness: a concrete successful load through both entry
points. -/
theorem loadResult_success_iff_witness :
    (∃ obj, LoadObjectFromStreamByType (fun _ => Except.ok demoDoc) demoMapperLoad
        (some ⟨some demoContext⟩) none 1 demoStream = some (Except.ok obj)) ∧
    (∃ obj, LoadAnyObjectFromStream (fun _ => Except.ok demoDoc) demoMapperLoad
        (some ⟨some demoContext⟩) none demoStream = some (Except.ok obj)) := by
  constructor
  · exact (loadResult_success_iff.1 Nat (fun _ => Except.ok demoDoc) demoMapperLoad
      (some ⟨some demoContext⟩) none 1 demoStream demoContext demoDoc "TestClass"
      demoClassData (JsonValue.obj []) rfl rfl rfl rfl rfl (by decide) rfl).1.mpr
      ⟨by decide, rfl⟩
  · exact (loadResult_success_iff.2 Nat (fun _ => Except.ok demoDoc) demoMapperLoad
      (some ⟨some demoContext⟩) none demoStream demoContext demoDoc "TestClass"
      1 [] (JsonValue.obj []) rfl rfl rfl (by decide) rfl).1.mpr
      ⟨by decide, rfl⟩

/-- Claim C4: the reporting callback never appends the one exact
filtered UUID message; every other message with a non-success outcome is
appended together with the field path; consequently a load whose only
non-success events carry that message and whose final outcome is a
success category returns overall success with an empty diagnostics
buffer. -/
theorem uuidMessage_suppressed :
    (∀ (result : ResultCode) (target buffer : String),
      issueReportingCallback suppressedUuidMessage result target buffer = buffer) ∧
    (∀ (message : String) (result : ResultCode) (target buffer : String),
      WasLoadSuccess result.outcome = false →
      message ≠ suppressedUuidMessage →
      issueReportingCallback message result target buffer =
        buffer ++ message ++ " \x27" ++ target ++ "\x27 \n") ∧
    (∀ (Obj : Type) (parse : List Char → Except String Document)
      (mapperLoad : Uuid → JsonValue → ResultCode × List Report × Obj)
      (settings : Option JsonDeserializerSettings)
      (globalContext : Option SerializeContext)
      (classId : Uuid) (stream : GenericStream) (sc : SerializeContext)
      (doc : Document) (className : String) (classData : ClassData)
      (objectData : JsonValue),
      PrepareDeserializerSettings settings globalContext = Except.ok sc →
      LoadJson parse stream = Except.ok doc →
      ValidateJsonClassHeader doc = Except.ok () →
      findMember doc ClassNameTag = some (JsonValue.str className) →
      sc.FindClassData classId = some classData →
      azstricmpEq classData.m_name className = true →
      findMember doc ClassDataTag = some objectData →
      (∀ r ∈ (mapperLoad classId objectData).2.1,
        WasLoadSuccess r.result.outcome = false → r.message = suppressedUuidMessage) →
      WasLoadSuccess (mapperLoad classId objectData).1.outcome = true →
      accumulateDiagnostics (mapperLoad classId objectData).2.1 = "" ∧
      LoadObjectFromStreamByType parse mapperLoad settings globalContext classId stream =
        some (Except.ok (mapperLoad classId objectData).2.2)) := by
  refine ⟨?_, ?_, ?_⟩
  · intro result target buffer
    cases hs : WasLoadSuccess result.outcome with
    | false => simp [issueReportingCallback, hs]
    | true => simp [issueReportingCallback, hs]
  · intro message result target buffer hfail hne
    simp [issueReportingCallback, hfail, hne]
  · intro Obj parse mapperLoad settings globalContext classId stream sc doc className
      classData objectData hprep hload hval hname hcd hcmp hdata hreports houtcome
    have hempty : accumulateDiagnostics (mapperLoad classId objectData).2.1 = "" :=
      accumulateDiagnostics_eq_empty (mapperLoad classId objectData).2.1 hreports
    refine ⟨hempty, ?_⟩
    have hpipe : LoadObjectFromStreamByType parse mapperLoad settings globalContext
        classId stream = loadObjectFromDocument mapperLoad sc classId doc := by
      simp [LoadObjectFromStreamByType, hprep, hload]
    rw [hpipe, loadObjectFromDocument_mapped mapperLoad sc classId doc className
      classData objectData hval hname hcd hcmp hdata]
    simp [houtcome, hempty]

/-- Claim C4 witness: a load whose mapper reports only the suppressed
UUID message with an unsupported outcome still succeeds overall, with an
empty diagnostics buffer. -/
theorem uuidMessage_suppressed_witness :
    accumulateDiagnostics (demoUuidMapperLoad 1 (JsonValue.obj [])).2.1 = "" ∧
    LoadObjectFromStreamByType (fun _ => Except.ok demoDoc) demoUuidMapperLoad
      (some ⟨some demoContext⟩) none 1 demoStream =
      some (Except.ok (demoUuidMapperLoad 1 (JsonValue.obj [])).2.2) := by
  refine uuidMessage_suppressed.2.2 Nat (fun _ => Except.ok demoDoc) demoUuidMapperLoad
    (some ⟨some demoContext⟩) none 1 demoStream demoContext demoDoc "TestClass"
    demoClassData (JsonValue.obj []) rfl rfl rfl rfl rfl (by decide) rfl ?_ (by decide)
  intro r hr _
  have : r = ⟨suppressedUuidMessage, ⟨Processing.Completed, Outcomes.Unsupported⟩,
      "/field"⟩ := by
    simpa [demoUuidMapperLoad] using hr
  rw [this]

/-- Claim C5 (code divergence): on a document that fails header
validation with the missing-ClassName message, the type-erased
`LoadAnyObjectFromStream` does not return that validation failure — the
source re-tests the already-good parse result instead of the validation
outcome, and runs on into the member access for the absent ClassName,
which is undefined behaviour (`none` in this model); the by-type loader,
by contrast, does return the validation failure. -/
theorem loadAny_headerValidation_not_terminal :
    ValidateJsonClassHeader headerOnlyDoc = Except.error "File should contain ClassName" ∧
    LoadAnyObjectFromStream (fun _ => Except.ok headerOnlyDoc) demoMapperLoad
      (some ⟨some demoContext⟩) none demoStream = none ∧
    LoadObjectFromStreamByType (fun _ => Except.ok headerOnlyDoc) demoMapperLoad
      (some ⟨some demoContext⟩) none 1 demoStream =
      some (Except.error "File should contain ClassName") :=
  ⟨rfl, rfl, rfl⟩

/-- The class-name-mismatch error text (Utils.cpp line 296). -/
def mismatchMessage (requestedName storedName : String) : String :=
  "Try to load class " ++ requestedName ++ " from class " ++ storedName ++ " data"

lemma mismatchMessage_length (a b : String) :
    (mismatchMessage a b).length = 35 + a.length + b.length := by
  have h18 : ("Try to load class " : String).length = 18 := rfl
  have h12 : (" from class " : String).length = 12 := rfl
  have h5 : (" data" : String).length = 5 := rfl
  simp [mismatchMessage, String.length_append, h18, h12, h5]
  omega

lemma mismatchMessage_ne_header (a b : String) :
    mismatchMessage a b ∉
      (["Not a valid JsonSerialization file", "File should contain ClassName",
        "ClassData should be an object"] : List String) := by
  intro hmem
  have hlen := mismatchMessage_length a b
  simp only [List.mem_cons, List.not_mem_nil, or_false] at hmem
  rcases hmem with h | h | h
  · have := congrArg String.length h
    rw [hlen] at this
    have h34 : ("Not a valid JsonSerialization file" : String).length = 34 := rfl
    rw [h34] at this
    omega
  · have := congrArg String.length h
    rw [hlen] at this
    have h29 : ("File should contain ClassName" : String).length = 29 := rfl
    rw [h29] at this
    omega
  · have := congrArg String.length h
    rw [hlen] at this
    have h29 : ("ClassData should be an object" : String).length = 29 := rfl
    rw [h29] at this
    omega

/-- Claim C6: after header validation succeeds, a stored class name that
does not case-insensitively match the registered name of the requested
type id makes the load fail with a message naming the requested type
name and the stored class name, and that message is distinct from every
header-validation message. -/
theorem classNameMismatch_failure :
    ∀ (Obj : Type) (parse : List Char → Except String Document)
      (mapperLoad : Uuid → JsonValue → ResultCode × List Report × Obj)
      (settings : Option JsonDeserializerSettings)
      (globalContext : Option SerializeContext)
      (classId : Uuid) (stream : GenericStream) (sc : SerializeContext)
      (doc : Document) (className : String) (classData : ClassData),
      PrepareDeserializerSettings settings globalContext = Except.ok sc →
      LoadJson parse stream = Except.ok doc →
      ValidateJsonClassHeader doc = Except.ok () →
      findMember doc ClassNameTag = some (JsonValue.str className) →
      sc.FindClassData classId = some classData →
      azstricmpEq classData.m_name className = false →
      LoadObjectFromStreamByType parse mapperLoad settings globalContext classId stream =
        some (Except.error (mismatchMessage classData.m_name className)) ∧
      mismatchMessage classData.m_name className ∉
        (["Not a valid JsonSerialization file", "File should contain ClassName",
          "ClassData should be an object"] : List String) := by
  intro Obj parse mapperLoad settings globalContext classId stream sc doc className
    classData hprep hload hval hname hcd hcmp
  refine ⟨?_, mismatchMessage_ne_header classData.m_name className⟩
  have hpipe : LoadObjectFromStreamByType parse mapperLoad settings globalContext
      classId stream = loadObjectFromDocument mapperLoad sc classId doc := by
    simp [LoadObjectFromStreamByType, hprep, hload]
  rw [hpipe]
  simp [loadObjectFromDocument, hval, hname, hcd, hcmp, mismatchMessage]

/-- A document declaring the class name Foo, distinct from the
registered demo class name. -/
def fooDoc : Document :=
  [(FileTypeTag, JsonValue.str FileType),
   (ClassNameTag, JsonValue.str "Foo"),
   (ClassDataTag, JsonValue.obj [])]

/-- Claim C6 witness: loading a payload declaring ClassName Foo into the
registered type TestClass fails with the message naming both. -/
theorem classNameMismatch_failure_witness :
    LoadObjectFromStreamByType (fun _ => Except.ok fooDoc) demoMapperLoad
      (some ⟨some demoContext⟩) none 1 demoStream =
      some (Except.error (mismatchMessage "TestClass" "Foo")) ∧
    mismatchMessage "TestClass" "Foo" ∉
      (["Not a valid JsonSerialization file", "File should contain ClassName",
        "ClassData should be an object"] : List String) :=
  classNameMismatch_failure Nat (fun _ => Except.ok fooDoc) demoMapperLoad
    (some ⟨some demoContext⟩) none 1 demoStream demoContext fooDoc "Foo"
    demoClassData rfl rfl rfl rfl rfl (by decide)

/-- Claim C8 (code divergence): with the requested type id unregistered,
the load reaches the class-name verification and dereferences the null
`FindClassData` result — undefined behaviour, modelled `none` — instead
of returning a failure result to the caller; the save path likewise
reads the class name through the unchecked lookup once the mapper has
completed, again undefined behaviour rather than a returned error. -/
theorem unregisteredType_noReturnedFailure :
    emptyContext.FindClassData 1 = none ∧
    LoadObjectFromStreamByType (fun _ => Except.ok demoDoc) demoMapperLoad
      (some ⟨some emptyContext⟩) none 1 demoStream = none ∧
    SaveObjectToStreamByType demoMapperStore (some ⟨some emptyContext⟩) none
      (0 : Nat) none 1 demoStream = none :=
  ⟨rfl, rfl, rfl⟩

/-- Claim C9: the file save serializes into an in-memory buffer first;
whenever that serialization step fails, the file system is left
untouched and the serialization error is returned unchanged. -/
theorem saveToFile_failure_leaves_fs :
    ∀ (Obj : Type) (mapperStore : Obj → Option Obj → Uuid → ResultCode × JsonValue)
      (settings : Option JsonSerializerSettings)
      (globalContext : Option SerializeContext)
      (classPtr : Obj) (defaultClassPtr : Option Obj) (classId : Uuid)
      (filePath : String) (fs : FileSystem) (e : String),
      SaveObjectToStreamByType mapperStore settings globalContext classPtr
        defaultClassPtr classId (⟨true, 0, [], true⟩ : GenericStream) =
        some (Except.error e) →
      SaveObjectToFileByType mapperStore settings globalContext classPtr
        defaultClassPtr classId filePath fs = (some (Except.error e), fs) := by
  intro Obj mapperStore settings globalContext classPtr defaultClassPtr classId
    filePath fs e h
  simp [SaveObjectToFileByType, h]

/-- Claim C9 witness: a save that fails for want of a serialize context
leaves a nonempty file system unchanged and propagates the error. -/
theorem saveToFile_failure_leaves_fs_witness :
    SaveObjectToFileByType demoMapperStore none none (0 : Nat) none 1 "out.json"
      demoFileSystem =
      (some (Except.error "Need SerializeContext for saving"), demoFileSystem) :=
  saveToFile_failure_leaves_fs Nat demoMapperStore none none 0 none 1 "out.json"
    demoFileSystem "Need SerializeContext for saving" rfl

/-- Claim C10: neither header validation nor the post-parse load path
inspects the Version member — any two parsed documents that agree on the
Type, ClassName and ClassData members (and so may differ arbitrarily in
the presence, type or value of Version) validate identically and load
identically. -/
theorem versionMember_not_inspected :
    ∀ (d1 d2 : Document),
      findMember d1 FileTypeTag = findMember d2 FileTypeTag →
      findMember d1 ClassNameTag = findMember d2 ClassNameTag →
      findMember d1 ClassDataTag = findMember d2 ClassDataTag →
      ValidateJsonClassHeader d1 = ValidateJsonClassHeader d2 ∧
      ∀ (Obj : Type) (mapperLoad : Uuid → JsonValue → ResultCode × List Report × Obj)
        (sc : SerializeContext) (classId : Uuid),
        loadObjectFromDocument mapperLoad sc classId d1 =
          loadObjectFromDocument mapperLoad sc classId d2 := by
  intro d1 d2 hT hN hD
  have hval : ValidateJsonClassHeader d1 = ValidateJsonClassHeader d2 := by
    unfold ValidateJsonClassHeader
    rw [hT, hN, hD]
  refine ⟨hval, ?_⟩
  intro Obj mapperLoad sc classId
  unfold loadObjectFromDocument
  rw [hval, hN, hD]

/-- A demo document identical to `demoDoc` except for an extra Version
member of string type. -/
def versionedDemoDoc : Document :=
  [(FileTypeTag, JsonValue.str FileType),
   (VersionTag, JsonValue.str "two"),
   (ClassNameTag, JsonValue.str "TestClass"),
   (ClassDataTag, JsonValue.obj [])]

/-- Claim C10 witness: a document with a string-typed Version member and
one with no Version member validate and load identically. -/
theorem versionMember_not_inspected_witness :
    ValidateJsonClassHeader versionedDemoDoc = ValidateJsonClassHeader demoDoc ∧
    loadObjectFromDocument demoMapperLoad demoContext 1 versionedDemoDoc =
      loadObjectFromDocument demoMapperLoad demoContext 1 demoDoc := by
  have h := versionMember_not_inspected versionedDemoDoc demoDoc rfl rfl rfl
  exact ⟨h.1, h.2 Nat demoMapperLoad demoContext 1⟩

/-! The object mapper, modelled from the spec for the round-trip claim:
`JsonSerialization::Store` and `JsonSerialization::Load` live outside
this translation unit, so they are modelled from spec sections 4.3 and
4.4. -/

/-- Modelled from the spec: an object instance of a reflected class is
its fields with integer values. -/
abbrev ObjectInstance := List (String × Int)

/-- Field lookup inside a default instance, used for default-diffing. -/
def lookupField (obj : ObjectInstance) (nm : String) : Option Int :=
  (obj.find? (fun f => f.1 == nm)).map (fun f => f.2)

/-- The payload members produced for an object when every field is
written. -/
def storedMembers (obj : ObjectInstance) : Document :=
  obj.map (fun f => (f.1, JsonValue.number f.2))

/-- Modelled from the spec: `JsonSerialization::Store` — with no default
object every field is written; with one, fields equal to the
corresponding default field are omitted (spec 4.3). -/
def jsonStore (obj : ObjectInstance) (defaultObj : Option ObjectInstance) :
    ResultCode × JsonValue :=
  match defaultObj with
  | none =>
    (⟨Processing.Completed, Outcomes.Success⟩, JsonValue.obj (storedMembers obj))
  | some d =>
    (⟨Processing.Completed, Outcomes.Success⟩,
     JsonValue.obj (storedMembers (obj.filter (fun f => lookupField d f.1 != some f.2))))

/-- The object a load produces: each reflected field takes the payload
member value when present as a number, else the field default. -/
def loadedObject (classData : ClassData) (members : Document) : ObjectInstance :=
  classData.fields.map (fun fs =>
    match findMember members fs.fname with
    | some (JsonValue.number n) => (fs.fname, n)
    | _ => (fs.fname, fs.fdefault))

/-- The reflected fields for which the payload supplies a member. -/
def matchedFields (classData : ClassData) (members : Document) : List FieldSpec :=
  classData.fields.filter (fun fs => (findMember members fs.fname).isSome)

/-- The payload members matching no reflected field; each is skipped
with a report. -/
def extraMembers (classData : ClassData) (members : Document) : Document :=
  members.filter (fun m => !(classData.fields.any (fun fs => fs.fname == m.1)))

/-- The aggregate outcome of a load: all fields supplied, none, or
some. -/
def loadOutcome (classData : ClassData) (members : Document) : Outcomes :=
  if (matchedFields classData members).length = classData.fields.length then
    Outcomes.Success
  else if (matchedFields classData members).length = 0 then
    Outcomes.DefaultsUsed
  else
    Outcomes.PartialDefaults

/-- Modelled from the spec: `JsonSerialization::Load` — decodes an
object payload into the target, fields absent from the payload keeping
their defaults, unrecognized payload members reported as skipped
(spec 4.3, 4.4). -/
def jsonLoad (classData : ClassData) (payload : JsonValue) :
    ResultCode × List Report × ObjectInstance :=
  match payload with
  | JsonValue.obj members =>
    (⟨Processing.Completed, loadOutcome classData members⟩,
     (extraMembers classData members).map (fun m =>
       ⟨"Skipped unrecognized field", ⟨Processing.Completed, Outcomes.Skipped⟩, m.1⟩),
     loadedObject classData members)
  | _ =>
    (⟨Processing.Halted, Outcomes.Unsupported⟩,
     [⟨"Unsupported payload", ⟨Processing.Halted, Outcomes.Unsupported⟩, ""⟩],
     classData.fields.map (fun fs => (fs.fname, fs.fdefault)))

/-- Modelled from the spec: the store entry point resolves the class
from the registry; an unregistered id halts the mapping. -/
def mapperStoreOf (sc : SerializeContext) :
    ObjectInstance → Option ObjectInstance → Uuid → ResultCode × JsonValue :=
  fun obj defaultObj classId =>
    match sc.FindClassData classId with
    | some _ => jsonStore obj defaultObj
    | none => (⟨Processing.Halted, Outcomes.Unknown⟩, JsonValue.null)

/-- Modelled from the spec: the load entry point resolves the class from
the registry; an unregistered id halts the mapping. -/
def mapperLoadOf (sc : SerializeContext) :
    Uuid → JsonValue → ResultCode × List Report × ObjectInstance :=
  fun classId payload =>
    match sc.FindClassData classId with
    | some classData => jsonLoad classData payload
    | none => (⟨Processing.Halted, Outcomes.Unknown⟩, [], [])

/-- The envelope document the save path writes for an object saved with
no default-object diffing. -/
def envelopeDoc (classData : ClassData) (obj : ObjectInstance) : Document :=
  [(FileTypeTag, JsonValue.str FileType),
   (VersionTag, JsonValue.number 1),
   (ClassNameTag, JsonValue.str classData.m_name),
   (ClassDataTag, JsonValue.obj (storedMembers obj))]

lemma findMember_cons (a : String) (v : JsonValue) (l : Document) (nm : String) :
    findMember ((a, v) :: l) nm = if a == nm then some v else findMember l nm := by
  by_cases h : (a == nm) = true
  · simp [findMember, List.find?_cons_of_pos, h]
  · have h' : ((a, v).1 == nm) = false := Bool.eq_false_iff.mpr h
    simp [findMember, List.find?_cons_of_neg, h', h]

lemma findMember_storedMembers :
    ∀ (obj : ObjectInstance), (obj.map Prod.fst).Nodup →
      ∀ f ∈ obj, findMember (storedMembers obj) f.1 = some (JsonValue.number f.2) := by
  intro obj
  induction obj with
  | nil => intro _ f hf; cases hf
  | cons g gs ih =>
    intro hnodup f hf
    have hnd : g.1 ∉ gs.map Prod.fst ∧ (gs.map Prod.fst).Nodup :=
      List.nodup_cons.mp (by simpa using hnodup)
    rcases List.mem_cons.mp hf with hfg | hftail
    · subst hfg
      simp [storedMembers, findMember_cons]
    · have hne : (g.1 == f.1) = false := by
        have : f.1 ∈ gs.map Prod.fst := List.mem_map.mpr ⟨f, hftail, rfl⟩
        have hgne : g.1 ≠ f.1 := fun he => hnd.1 (he ▸ this)
        exact beq_eq_false_iff_ne.mpr hgne
      have := ih hnd.2 f hftail
      simpa [storedMembers, findMember_cons, hne] using this

lemma loadFields_roundTrip :
    ∀ (fields : List FieldSpec) (obj : ObjectInstance) (members : Document),
      (∀ f ∈ obj, findMember members f.1 = some (JsonValue.number f.2)) →
      obj.map Prod.fst = fields.map FieldSpec.fname →
      fields.map (fun fs =>
        match findMember members fs.fname with
        | some (JsonValue.number n) => (fs.fname, n)
        | _ => (fs.fname, fs.fdefault)) = obj := by
  intro fields
  induction fields with
  | nil =>
    intro obj members _ hnames
    cases obj with
    | nil => rfl
    | cons f objTail => simp at hnames
  | cons fs fields ih =>
    intro obj members hmem hnames
    cases obj with
    | nil => simp at hnames
    | cons f objTail =>
      obtain ⟨fn, fv⟩ := f
      simp only [List.map_cons, List.cons.injEq] at hnames
      obtain ⟨h1, h2⟩ := hnames
      have hf := hmem (fn, fv) (List.mem_cons_self _ _)
      simp only [List.map_cons, List.cons.injEq]
      constructor
      · rw [← h1, hf]
      · exact ih objTail members (fun x hx => hmem x (List.mem_cons_of_mem _ hx)) h2

lemma matchedFields_all (classData : ClassData) (obj : ObjectInstance)
    (hnames : obj.map Prod.fst = classData.fields.map FieldSpec.fname)
    (hnodup : (obj.map Prod.fst).Nodup) :
    matchedFields classData (storedMembers obj) = classData.fields := by
  apply List.filter_eq_self.mpr
  intro fs hfs
  have : fs.fname ∈ obj.map Prod.fst := by
    rw [hnames]
    exact List.mem_map.mpr ⟨fs, hfs, rfl⟩
  rcases List.mem_map.mp this with ⟨f, hfobj, hfeq⟩
  have := findMember_storedMembers obj hnodup f hfobj
  rw [← hfeq, this]
  rfl

lemma extraMembers_nil (classData : ClassData) (obj : ObjectInstance)
    (hnames : obj.map Prod.fst = classData.fields.map FieldSpec.fname) :
    extraMembers classData (storedMembers obj) = [] := by
  apply List.filter_eq_nil_iff.mpr
  intro m hm
  rcases List.mem_map.mp hm with ⟨f, hfobj, hfeq⟩
  have hn : f.1 ∈ classData.fields.map FieldSpec.fname := by
    rw [← hnames]
    exact List.mem_map.mpr ⟨f, hfobj, rfl⟩
  rcases List.mem_map.mp hn with ⟨fs, hfs, hfsname⟩
  have hany : classData.fields.any (fun x => x.fname == m.1) = true := by
    apply List.any_eq_true.mpr
    refine ⟨fs, hfs, ?_⟩
    rw [← hfeq]
    exact beq_iff_eq.mpr hfsname
  simp [hany]

lemma jsonLoad_storedMembers (classData : ClassData) (obj : ObjectInstance)
    (hnames : obj.map Prod.fst = classData.fields.map FieldSpec.fname)
    (hnodup : (obj.map Prod.fst).Nodup) :
    jsonLoad classData (JsonValue.obj (storedMembers obj)) =
      (⟨Processing.Completed, Outcomes.Success⟩, [], obj) := by
  have hmatched := matchedFields_all classData obj hnames hnodup
  have hextra := extraMembers_nil classData obj hnames
  have hloaded : loadedObject classData (storedMembers obj) = obj :=
    loadFields_roundTrip classData.fields obj (storedMembers obj)
      (findMember_storedMembers obj hnodup) hnames
  simp [jsonLoad, loadOutcome, hmatched, hextra, hloaded]

/-- Claim C3: saving a well-formed object of a registered type with no
default object and loading the written document back into the same type
returns the object field-for-field. The pretty printer and the parser
are structural inverses (spec 4.1), so the load is run with the parser
returning the saved document. -/
theorem saveLoad_roundTrip
    (sc : SerializeContext) (classId : Uuid) (classData : ClassData)
    (obj : ObjectInstance) (saveStream loadStream : GenericStream)
    (hcw : saveStream.canWrite = true) (hws : saveStream.writeSucceeds = true)
    (hcd : sc.FindClassData classId = some classData)
    (hnames : obj.map Prod.fst = classData.fields.map FieldSpec.fname)
    (hnodup : (obj.map Prod.fst).Nodup)
    (hlen : ¬ loadStream.length > MaxFileSize)
    (hread : loadStream.contents.length = loadStream.length) :
    SaveObjectToStreamByType (mapperStoreOf sc) (some ⟨some sc⟩) none obj none classId
      saveStream = some (Except.ok (envelopeDoc classData obj)) ∧
    LoadObjectFromStreamByType (fun _ => Except.ok (envelopeDoc classData obj))
      (mapperLoadOf sc) (some ⟨some sc⟩) none classId loadStream =
      some (Except.ok obj) := by
  constructor
  · simp [SaveObjectToStreamByType, hcw, hws, resolveSaveContext, mapperStoreOf, hcd,
      jsonStore, envelopeDoc]
  · have hloadjson : LoadJson (fun _ => Except.ok (envelopeDoc classData obj))
        loadStream = Except.ok (envelopeDoc classData obj) := by
      simp [LoadJson, hlen, hread]
    have hval : ValidateJsonClassHeader (envelopeDoc classData obj) = Except.ok () := rfl
    have hname : findMember (envelopeDoc classData obj) ClassNameTag =
        some (JsonValue.str classData.m_name) := rfl
    have hdata : findMember (envelopeDoc classData obj) ClassDataTag =
        some (JsonValue.obj (storedMembers obj)) := rfl
    have hcmp : azstricmpEq classData.m_name classData.m_name = true := by
      simp [azstricmpEq]
    have hpipe : LoadObjectFromStreamByType
        (fun _ => Except.ok (envelopeDoc classData obj)) (mapperLoadOf sc)
        (some ⟨some sc⟩) none classId loadStream =
        loadObjectFromDocument (mapperLoadOf sc) sc classId (envelopeDoc classData obj) := by
      simp [LoadObjectFromStreamByType, PrepareDeserializerSettings, hloadjson]
    rw [hpipe, loadObjectFromDocument_mapped (mapperLoadOf sc) sc classId
      (envelopeDoc classData obj) classData.m_name classData
      (JsonValue.obj (storedMembers obj)) hval hname hcd hcmp hdata]
    have hmapped : mapperLoadOf sc classId (JsonValue.obj (storedMembers obj)) =
        (⟨Processing.Completed, Outcomes.Success⟩, [], obj) := by
      simp [mapperLoadOf, hcd, jsonLoad_storedMembers classData obj hnames hnodup]
    rw [hmapped]
    simp [accumulateDiagnostics, WasLoadSuccess]

/-- The Point example from the spec: two integer fields with zero
defaults. -/
def pointClassData : ClassData := ⟨"Point", [⟨"x", 0⟩, ⟨"y", 0⟩]⟩

def pointContext : SerializeContext := ⟨[(2, pointClassData)]⟩

def pointObj : ObjectInstance := [("x", 1), ("y", 2)]

/-- Claim C3 witness: the Point instance with x one and y two survives
the save-then-load round trip. -/
theorem saveLoad_roundTrip_witness :
    SaveObjectToStreamByType (mapperStoreOf pointContext) (some ⟨some pointContext⟩)
      none pointObj none 2 demoStream =
      some (Except.ok (envelopeDoc pointClassData pointObj)) ∧
    LoadObjectFromStreamByType (fun _ => Except.ok (envelopeDoc pointClassData pointObj))
      (mapperLoadOf pointContext) (some ⟨some pointContext⟩) none 2 demoStream =
      some (Except.ok pointObj) :=
  saveLoad_roundTrip pointContext 2 pointClassData pointObj demoStream demoStream
    rfl rfl rfl rfl (by decide) (by decide) rfl

end AZJson
